import Mathlib

/-!
Verification of the charity-events client website (search/filter/sort pipeline,
API client, and page controllers) against its natural-language specification.

The JavaScript source is shallowly embedded:
* JS numbers that hold money/amounts are modelled as `ℚ` (the spec restricts the
  claims about them to non-negative decimals);
* JS strings are modelled as `String`, and the ASCII-level operations the code
  performs on them (`toLowerCase`, `includes`, `<`) are modelled on `List Char`
  (`String.data`), mirroring the code-unit semantics of the JS operations;
* event timestamps are modelled as an integer number of milliseconds since the
  epoch (`ℤ`), which is exactly the value JS `Date` comparison and
  `toISOString`-day truncation are computed from;
* fallible operations return `Except`/`Option`; `fetch` results are supplied by
  explicit oracles so that error paths are first-class values.
-/

/-! ## JS string primitives (ASCII fragment used by the code) -/

/-- ASCII lower-casing of one character, the fragment of JS
`String.prototype.toLowerCase` exercised by the code (event names, locations
and filter terms). -/
def lowerChar (c : Char) : Char :=
  if 'A' ≤ c ∧ c ≤ 'Z' then Char.ofNat (c.toNat + 32) else c

/-- JS `s.toLowerCase()`, as a list of characters. -/
def jsToLower (s : String) : List Char :=
  s.data.map lowerChar

/-- JS `hay.includes(sub)`: `sub` occurs contiguously inside `hay`. -/
def jsIncludes (hay sub : List Char) : Bool :=
  decide (sub <:+: hay)

/-! ## Data model

`Event` is the validated record shape produced by the API client
(`CharityEventsAPI._validateEventData`) and consumed by the filter/sort
pipeline; only the scalar fields the verified pipeline reads are carried. -/

structure Event where
  id : ℤ
  name : String
  short_description : String
  /-- Milliseconds since the epoch; JS `Date` order and day-truncation are
  functions of this value. -/
  date_time : ℤ
  location : String
  category_id : ℤ
  category_name : String
  ticket_price : ℚ
  goal_amount : ℚ
  current_amount : ℚ
  is_active : Bool
deriving DecidableEq, Repr

/-- UTC calendar-day index of a timestamp: the `YYYY-MM-DD` prefix produced by
`new Date(t).toISOString().split('T')[0]` is in bijection with `⌊t / 86400000⌋`,
so the day-equality test on the strings is day-index equality. -/
def utcDay (t : ℤ) : ℤ :=
  Int.fdiv t 86400000

/-- The client-held filter criteria (search.js form state).  The JS code guards
each criterion with a truthiness test (`if (filters.date) ...`), so an empty
form field behaves as an absent criterion; absence is modelled as `none`. -/
structure Criteria where
  /-- Exact calendar day, as a UTC day index. -/
  date : Option ℤ
  /-- Location search term (matched case-insensitively against location or name). -/
  location : Option String
  /-- Exact category identifier (the form value, numerically compared by `==`
  with `event.category_id`). -/
  category : Option ℤ
deriving DecidableEq, Repr

/-- The per-event predicate inside `performClientSideSearch`
(search.js lines 302-328): conjunction of the date, location and category
tests, where an absent criterion matches everything. -/
def matchesFilters (c : Criteria) (e : Event) : Bool :=
  (match c.date with
   | none => true
   | some d => utcDay e.date_time == d) &&
  (match c.location with
   | none => true
   | some loc =>
     jsIncludes (jsToLower e.location) (jsToLower loc) ||
     jsIncludes (jsToLower e.name) (jsToLower loc)) &&
  (match c.category with
   | none => true
   | some cid => e.category_id == cid)

/-- The client-side filter of `performClientSideSearch` (`allEvents.filter`,
search.js line 302); the spec calls this operation `applyFilters(L, C)`. -/
def applyFilters (c : Criteria) (events : List Event) : List Event :=
  events.filter (matchesFilters c)

/-! ## Progress computation -/

/-- JS `Math.round` on a rational: round half toward positive infinity. -/
def jsRound (q : ℚ) : ℤ :=
  ⌊q + 1/2⌋

/-- `Utils.calculateProgress(current, total)` (part_001 lines 308-311); the
copies in index.js/search.js differ only by an extra `!total` test, which on
rational inputs is the same `total = 0` test. -/
def calculateProgress (current total : ℚ) : ℤ :=
  if total = 0 then 0 else min 100 (jsRound (current / total * 100))

/-! ## C1 / C9 / C3 theorems -/

/-- C1: for every event list and filter criteria, the client-side filter
returns a subset (sublist) of its input in which every element satisfies every
present criterion — exact calendar day, case-insensitive location-or-name
substring, exact category id — and an absent criterion excludes nothing. -/
theorem applyFilters_subset_and_matches (c : Criteria) (l : List Event) :
    (applyFilters c l).Sublist l ∧
    ∀ e ∈ applyFilters c l,
      (∀ d, c.date = some d → utcDay e.date_time = d) ∧
      (∀ loc, c.location = some loc →
        (jsIncludes (jsToLower e.location) (jsToLower loc) = true ∨
         jsIncludes (jsToLower e.name) (jsToLower loc) = true)) ∧
      (∀ cid, c.category = some cid → e.category_id = cid) := by
  refine ⟨List.filter_sublist l, ?_⟩
  intro e he
  have hm : matchesFilters c e = true := (List.mem_filter.mp he).2
  unfold matchesFilters at hm
  rw [Bool.and_eq_true, Bool.and_eq_true] at hm
  obtain ⟨⟨hdate, hloc⟩, hcat⟩ := hm
  refine ⟨?_, ?_, ?_⟩
  · intro d hd
    rw [hd] at hdate
    exact beq_iff_eq.mp hdate
  · intro loc hl
    rw [hl] at hloc
    exact (Bool.or_eq_true _ _).mp hloc
  · intro cid hc
    rw [hc] at hcat
    exact beq_iff_eq.mp hcat

/-- A concrete event used throughout the witnesses (Scenario A of the spec). -/
def parkRunEvent : Event :=
  { id := 1
    name := "5K Run"
    short_description := "A charity fun run"
    date_time := 1760000000000
    location := "City Park"
    category_id := 2
    category_name := "Fun Run"
    ticket_price := 25
    goal_amount := 10000
    current_amount := 6500
    is_active := true }

/-- Witness for C1: the location criterion "park" keeps the City Park event,
and the kept event satisfies the location predicate. -/
theorem applyFilters_subset_and_matches_witness :
    parkRunEvent ∈ applyFilters ⟨none, some "park", none⟩ [parkRunEvent] ∧
    (∀ loc, (some "park" : Option String) = some loc →
      (jsIncludes (jsToLower parkRunEvent.location) (jsToLower loc) = true ∨
       jsIncludes (jsToLower parkRunEvent.name) (jsToLower loc) = true)) :=
  ⟨by decide,
   ((applyFilters_subset_and_matches ⟨none, some "park", none⟩ [parkRunEvent]).2
     parkRunEvent (by decide)).2.1⟩

/-- C9: the client-side filter is idempotent — filtering an already-filtered
list with the same criteria changes nothing. -/
theorem applyFilters_idempotent (c : Criteria) (l : List Event) :
    applyFilters c (applyFilters c l) = applyFilters c l := by
  unfold applyFilters
  rw [List.filter_filter]
  apply List.filter_congr
  intro e _
  exact Bool.and_self (matchesFilters c e)

/-- C3: `calculateProgress` returns 0 when the goal is 0, and otherwise
clamps the rounded percentage into [0, 100]; for a fixed positive goal it is
monotone non-decreasing in the raised amount. -/
theorem calculateProgress_spec (current current' total : ℚ)
    (hc : 0 ≤ current) (hcc : current ≤ current') (ht : 0 ≤ total) :
    (total = 0 → calculateProgress current total = 0) ∧
    (total ≠ 0 →
      calculateProgress current total
        = max 0 (min 100 (jsRound (current / total * 100))) ∧
      0 ≤ calculateProgress current total ∧
      calculateProgress current total ≤ 100 ∧
      calculateProgress current total ≤ calculateProgress current' total) := by
  constructor
  · intro h0
    simp [calculateProgress, h0]
  · intro hne
    have hpos : 0 < total := lt_of_le_of_ne ht (Ne.symm hne)
    have hq : (0:ℚ) ≤ current / total * 100 :=
      mul_nonneg (div_nonneg hc ht) (by norm_num)
    have hround : (0:ℤ) ≤ jsRound (current / total * 100) := by
      unfold jsRound
      rw [Int.le_floor]
      push_cast
      linarith
    have hmin0 : (0:ℤ) ≤ min 100 (jsRound (current / total * 100)) :=
      le_min (by norm_num) hround
    have heq : calculateProgress current total
        = min 100 (jsRound (current / total * 100)) := by
      simp [calculateProgress, hne]
    have heq' : calculateProgress current' total
        = min 100 (jsRound (current' / total * 100)) := by
      simp [calculateProgress, hne]
    refine ⟨?_, ?_, ?_, ?_⟩
    · rw [heq, max_eq_right hmin0]
    · rw [heq]; exact hmin0
    · rw [heq]; exact min_le_left _ _
    · rw [heq, heq']
      apply min_le_min (le_refl (100:ℤ))
      apply Int.floor_le_floor
      have : current / total ≤ current' / total := by gcongr
      nlinarith

/-- Witness for C3 at the Scenario-A numbers (6500 raised of a 10000 goal). -/
theorem calculateProgress_spec_witness :
    (0:ℚ) ≤ 6500 ∧ (6500:ℚ) ≤ 7000 ∧ (0:ℚ) ≤ 10000 ∧
    (((10000:ℚ) = 0 → calculateProgress 6500 10000 = 0) ∧
     ((10000:ℚ) ≠ 0 →
       calculateProgress 6500 10000
         = max 0 (min 100 (jsRound (6500 / 10000 * 100))) ∧
       0 ≤ calculateProgress 6500 10000 ∧
       calculateProgress 6500 10000 ≤ 100 ∧
       calculateProgress 6500 10000 ≤ calculateProgress 7000 10000)) :=
  ⟨by decide, by decide, by decide,
   calculateProgress_spec 6500 7000 10000 (by decide) (by decide) (by decide)⟩

/-! ## Sorting (`SearchPage._sortEvents`, `HomePage._filterAndSortEvents`)

Both comparators are the same `switch` over the sort key: text keys compare
the lower-cased strings, `price`/`date` compare numbers, and the pair is
swapped first when the direction is `desc`.  (`SearchPage` also accepts the
key `relevance`, and both default branches fall back to comparing
`date_time`.)  JS `Array.prototype.sort` is a stable sort of the array by the
comparator; it is modelled by `List.mergeSort` on the comparator-induced
boolean order. -/

inductive SortKey where
  | date
  | name
  | location
  | price
  | relevance
deriving DecidableEq, Repr

inductive SortDir where
  | asc
  | desc
deriving DecidableEq, Repr

/-- The strict comparison `aValue < bValue` performed by the comparator for a
given sort key (part_003 lines 921-944, part_000 lines 1065-1083). -/
def keyLt (k : SortKey) (a b : Event) : Bool :=
  match k with
  | .name => decide (jsToLower a.name < jsToLower b.name)
  | .location => decide (jsToLower a.location < jsToLower b.location)
  | .price => decide (a.ticket_price < b.ticket_price)
  | .date => decide (a.date_time < b.date_time)
  | .relevance => decide (a.date_time < b.date_time)

/-- The JS comparator: -1/1/0 by the key comparison, with the operand pair
swapped when the direction is descending (part_003 lines 946-952). -/
def jsCompare (k : SortKey) (d : SortDir) (a b : Event) : ℤ :=
  match d with
  | .asc => if keyLt k a b then -1 else if keyLt k b a then 1 else 0
  | .desc => if keyLt k b a then -1 else if keyLt k a b then 1 else 0

/-- The non-strict order a stable sort realises from the comparator:
`compare(a, b) ≤ 0` keeps `a` before `b`. -/
def sortLe (k : SortKey) (d : SortDir) (a b : Event) : Bool :=
  decide (jsCompare k d a b ≤ 0)

/-- `[...events].sort(comparator)` / the spec operation `sort(L, key, dir)`:
a stable sort of the list by the comparator. -/
def sortEvents (k : SortKey) (d : SortDir) (events : List Event) : List Event :=
  events.mergeSort (sortLe k d)

theorem keyLt_asymm (k : SortKey) (a b : Event) :
    keyLt k a b = true → keyLt k b a = false := by
  cases k <;> simp only [keyLt, decide_eq_true_eq, decide_eq_false_iff_not] <;>
    exact fun h => lt_asymm h

theorem keyLt_negtrans (k : SortKey) (a b c : Event) :
    keyLt k b a = false → keyLt k c b = false → keyLt k c a = false := by
  cases k <;> simp only [keyLt, decide_eq_false_iff_not, not_lt] <;>
    exact fun h1 h2 => le_trans h1 h2

theorem sortLe_asc (k : SortKey) (a b : Event) :
    sortLe k SortDir.asc a b = !keyLt k b a := by
  unfold sortLe jsCompare
  cases hab : keyLt k a b
  · cases hba : keyLt k b a <;> simp [hab, hba]
  · have hba := keyLt_asymm k a b hab
    simp [hab, hba]

theorem sortLe_desc (k : SortKey) (a b : Event) :
    sortLe k SortDir.desc a b = !keyLt k a b := by
  unfold sortLe jsCompare
  cases hab : keyLt k a b
  · cases hba : keyLt k b a <;> simp [hab, hba]
  · have hba := keyLt_asymm k a b hab
    simp [hab, hba]

theorem sortLe_trans (k : SortKey) (d : SortDir) :
    ∀ a b c : Event, sortLe k d a b = true → sortLe k d b c = true →
      sortLe k d a c = true := by
  intro a b c h1 h2
  cases d
  · rw [sortLe_asc, Bool.not_eq_true'] at h1 h2 ⊢
    exact keyLt_negtrans k a b c h1 h2
  · rw [sortLe_desc, Bool.not_eq_true'] at h1 h2 ⊢
    exact keyLt_negtrans k c b a h2 h1

theorem sortLe_total (k : SortKey) (d : SortDir) :
    ∀ a b : Event, (sortLe k d a b || sortLe k d b a) = true := by
  intro a b
  cases d
  · rw [sortLe_asc, sortLe_asc]
    cases hba : keyLt k b a
    · simp
    · have hab := keyLt_asymm k b a hba
      simp [hab]
  · rw [sortLe_desc, sortLe_desc]
    cases hab : keyLt k a b
    · simp
    · have hba := keyLt_asymm k a b hab
      simp [hba]

theorem jsCompare_asc_eq_zero (k : SortKey) (a b : Event) :
    jsCompare k SortDir.asc a b = 0 ↔
      (keyLt k a b = false ∧ keyLt k b a = false) := by
  unfold jsCompare
  cases hab : keyLt k a b <;> cases hba : keyLt k b a <;> simp [hab, hba]

/-- C4: for every sort key and direction the sort is a total reordering — the
output has the same length and the same multiset of elements as the input —
and when the ascending comparator reports no ties on the list, sorting
descending yields exactly the reverse of sorting ascending. -/
theorem sortEvents_spec (k : SortKey) (d : SortDir) (l : List Event) :
    ((sortEvents k d l).length = l.length ∧ (sortEvents k d l).Perm l) ∧
    (l.Pairwise (fun a b => jsCompare k SortDir.asc a b ≠ 0) →
      sortEvents k SortDir.desc l = (sortEvents k SortDir.asc l).reverse) := by
  constructor
  · exact ⟨List.length_mergeSort l, List.mergeSort_perm l (sortLe k d)⟩
  · intro hT
    have hT' : l.Pairwise
        (fun a b : Event => keyLt k a b = true ∨ keyLt k b a = true) := by
      refine hT.imp ?_
      intro a b h
      cases hab : keyLt k a b
      · cases hba : keyLt k b a
        · exact absurd ((jsCompare_asc_eq_zero k a b).mpr ⟨hab, hba⟩) h
        · exact Or.inr rfl
      · exact Or.inl rfl
    have hsym : ∀ {a b : Event},
        (keyLt k a b = true ∨ keyLt k b a = true) →
        (keyLt k b a = true ∨ keyLt k a b = true) := fun h => h.symm
    have hTa : (sortEvents k SortDir.asc l).Pairwise
        (fun a b : Event => keyLt k a b = true ∨ keyLt k b a = true) :=
      ((List.mergeSort_perm l (sortLe k SortDir.asc)).pairwise_iff hsym).mpr hT'
    have hTd : (sortEvents k SortDir.desc l).Pairwise
        (fun a b : Event => keyLt k a b = true ∨ keyLt k b a = true) :=
      ((List.mergeSort_perm l (sortLe k SortDir.desc)).pairwise_iff hsym).mpr hT'
    have hSa : (sortEvents k SortDir.asc l).Pairwise
        (fun a b => sortLe k SortDir.asc a b = true) :=
      List.sorted_mergeSort (sortLe_trans k SortDir.asc)
        (sortLe_total k SortDir.asc) l
    have hSd : (sortEvents k SortDir.desc l).Pairwise
        (fun a b => sortLe k SortDir.desc a b = true) :=
      List.sorted_mergeSort (sortLe_trans k SortDir.desc)
        (sortLe_total k SortDir.desc) l
    have hSa' : (sortEvents k SortDir.asc l).Pairwise
        (fun a b => keyLt k a b = true) := by
      refine (hSa.and hTa).imp ?_
      rintro a b ⟨h1, h2⟩
      rw [sortLe_asc, Bool.not_eq_true'] at h1
      rcases h2 with h | h
      · exact h
      · rw [h1] at h
        exact (Bool.false_ne_true h).elim
    have hSd' : (sortEvents k SortDir.desc l).Pairwise
        (fun a b => keyLt k b a = true) := by
      refine (hSd.and hTd).imp ?_
      rintro a b ⟨h1, h2⟩
      rw [sortLe_desc, Bool.not_eq_true'] at h1
      rcases h2 with h | h
      · rw [h1] at h
        exact (Bool.false_ne_true h).elim
      · exact h
    have hRev : ((sortEvents k SortDir.asc l).reverse).Pairwise
        (fun a b => keyLt k b a = true) :=
      List.pairwise_reverse.mpr hSa'
    have hp : (sortEvents k SortDir.desc l).Perm
        ((sortEvents k SortDir.asc l).reverse) :=
      ((List.mergeSort_perm l (sortLe k SortDir.desc)).trans
        (List.mergeSort_perm l (sortLe k SortDir.asc)).symm).trans
        (List.reverse_perm _).symm
    haveI : IsAntisymm Event (fun a b => keyLt k b a = true) := by
      constructor
      intro a b h1 h2
      have h3 := keyLt_asymm k b a h1
      rw [h3] at h2
      exact (Bool.false_ne_true h2).elim
    exact List.eq_of_perm_of_sorted hp hSd' hRev

/-- A second concrete event, name-distinct from `parkRunEvent`, for witnesses. -/
def beachEvent : Event :=
  { id := 2
    name := "Beach Cleanup"
    short_description := "Community beach cleanup day"
    date_time := 1761000000000
    location := "Long Beach"
    category_id := 3
    category_name := "Volunteering"
    ticket_price := 0
    goal_amount := 0
    current_amount := 0
    is_active := true }

/-- Witness for C4: a two-event list with distinct names has no name ties, so
the theorem applies to it. -/
theorem sortEvents_spec_witness :
    List.Pairwise
      (fun a b => jsCompare SortKey.name SortDir.asc a b ≠ 0)
      [beachEvent, parkRunEvent] ∧
    (((sortEvents SortKey.name SortDir.asc [beachEvent, parkRunEvent]).length
        = [beachEvent, parkRunEvent].length ∧
      (sortEvents SortKey.name SortDir.asc [beachEvent, parkRunEvent]).Perm
        [beachEvent, parkRunEvent]) ∧
     (List.Pairwise
        (fun a b => jsCompare SortKey.name SortDir.asc a b ≠ 0)
        [beachEvent, parkRunEvent] →
      sortEvents SortKey.name SortDir.desc [beachEvent, parkRunEvent]
        = (sortEvents SortKey.name SortDir.asc
            [beachEvent, parkRunEvent]).reverse)) :=
  ⟨by decide, sortEvents_spec SortKey.name SortDir.asc [beachEvent, parkRunEvent]⟩

/-! ## Array-mutation effects of the two sort call sites (C10)

JS arrays are heap objects: `Array.prototype.filter` and the spread `[...a]`
allocate a fresh array, while `Array.prototype.sort` reorders its receiver in
place and returns the receiver itself.  Each call site is therefore modelled
as returning both the final contents of the array it was handed and the
contents of the array it returns, plus whether the returned array is the very
array object that was passed in. -/

structure JsArrayResult where
  /-- Final contents of the array object that was passed in. -/
  input : List Event
  /-- Contents of the returned array. -/
  ret : List Event
  /-- Whether the returned array is the same array object as the input. -/
  retIsInput : Bool
deriving DecidableEq, Repr

/-- The Home page search-query predicate (part_000 lines 1051-1058):
case-insensitive substring match against name, location, short description or
category name. -/
def homeMatchesQuery (query : String) (e : Event) : Bool :=
  jsIncludes (jsToLower e.name) (jsToLower query) ||
  jsIncludes (jsToLower e.location) (jsToLower query) ||
  jsIncludes (jsToLower e.short_description) (jsToLower query) ||
  jsIncludes (jsToLower e.category_name) (jsToLower query)

/-- `HomePage._filterAndSortEvents(events)` (part_000 lines 1047-1095).
`let filtered = events` aliases the argument; only a non-empty search query
(the `if (this.state.searchQuery)` truthiness guard) replaces `filtered` with
a fresh array from `filter`.  `filtered.sort(...)` then reorders `filtered`
in place and the function returns it — so with an empty query the argument
array itself is reordered and returned.  The comparator is the same key
`switch` as the search page (without the `relevance` case; unknown keys fall
back to `date`). -/
def homeFilterAndSortEvents (searchQuery : String) (k : SortKey) (d : SortDir)
    (events : List Event) : JsArrayResult :=
  if searchQuery = "" then
    { input := sortEvents k d events
      ret := sortEvents k d events
      retIsInput := true }
  else
    { input := events
      ret := sortEvents k d (events.filter (homeMatchesQuery searchQuery))
      retIsInput := false }

/-- `SearchPage._sortEvents(events)` (part_003 lines 917-954): sorts the copy
`[...events]`, so the argument array is untouched and a fresh array is
returned. -/
def searchSortEvents (k : SortKey) (d : SortDir)
    (events : List Event) : JsArrayResult :=
  { input := events
    ret := sortEvents k d events
    retIsInput := false }

/-- C10: with an empty search query the Home page filter-and-sort returns the
very array it was given, whose contents are now the sorted list — each sort
change permanently reorders the stored master list — whereas the Search page
sort copies first, returns a fresh array and leaves its input unchanged. -/
theorem homeFilterAndSort_sortsInPlace (q : String) (k : SortKey) (d : SortDir)
    (events : List Event) (h : q = "") :
    (homeFilterAndSortEvents q k d events).retIsInput = true ∧
    (homeFilterAndSortEvents q k d events).input = sortEvents k d events ∧
    (homeFilterAndSortEvents q k d events).ret
      = (homeFilterAndSortEvents q k d events).input ∧
    (searchSortEvents k d events).retIsInput = false ∧
    (searchSortEvents k d events).input = events := by
  subst h
  simp [homeFilterAndSortEvents, searchSortEvents]

/-- Witness for C10 on a concrete two-event list (sorting by name ascending
moves `parkRunEvent` in front of `beachEvent`). -/
theorem homeFilterAndSort_sortsInPlace_witness :
    ("" : String) = "" ∧
    ((homeFilterAndSortEvents "" SortKey.name SortDir.asc
        [beachEvent, parkRunEvent]).retIsInput = true ∧
     (homeFilterAndSortEvents "" SortKey.name SortDir.asc
        [beachEvent, parkRunEvent]).input
       = sortEvents SortKey.name SortDir.asc [beachEvent, parkRunEvent] ∧
     (homeFilterAndSortEvents "" SortKey.name SortDir.asc
        [beachEvent, parkRunEvent]).ret
       = (homeFilterAndSortEvents "" SortKey.name SortDir.asc
            [beachEvent, parkRunEvent]).input ∧
     (searchSortEvents SortKey.name SortDir.asc
        [beachEvent, parkRunEvent]).retIsInput = false ∧
     (searchSortEvents SortKey.name SortDir.asc
        [beachEvent, parkRunEvent]).input = [beachEvent, parkRunEvent]) :=
  ⟨rfl, homeFilterAndSort_sortsInPlace "" SortKey.name SortDir.asc
    [beachEvent, parkRunEvent] rfl⟩

/-! ## Server-search fallback (`performSearch`, search.js lines 238-283)

The two `fetch` calls the flow can make are supplied as oracles: the result of
`GET /api/events/search?...` and the result of `GET /api/events`.  A fetch
either yields a decoded payload (JSON decoding and the envelope unwrapping
`data.data || data || []` are folded into the payload list), or fails with a
non-ok HTTP status (`response.ok` false makes the code throw), or fails at the
network level (`fetch` rejects with a `TypeError`). -/

inductive FetchResult where
  | ok (events : List Event)
  | httpError (status : ℕ)
  | netError
deriving DecidableEq, Repr

structure SearchNet where
  /-- Outcome of `GET /api/events/search?...`. -/
  searchResult : FetchResult
  /-- Outcome of the fallback `GET /api/events`. -/
  eventsResult : FetchResult
deriving DecidableEq, Repr

/-- The user-visible outcome of the search flow: either
`displaySearchResults(events, filters)` ran, or `showSearchError(error)` ran
with the given message. -/
inductive SearchOutcome where
  | displayed (events : List Event)
  | errorShown (message : String)
deriving DecidableEq, Repr

def fetchFails : FetchResult → Bool
  | .ok _ => false
  | .httpError _ => true
  | .netError => true

/-- The `error.message` of a failed fetch path inside `performSearch`: a
non-ok search response throws `Search endpoint returned {status}`; a rejected
`fetch` carries the browser TypeError message. -/
def fetchErrorMessage : FetchResult → String
  | .ok _ => ""
  | .httpError s => "Search endpoint returned " ++ toString s
  | .netError => "Failed to fetch"

/-- `performClientSideSearch(filters)` (search.js lines 286-336): fetch the
unfiltered full list and filter it locally with the three-predicate filter;
any failure is rethrown as `Client-side search failed: ...`. -/
def performClientSideSearch (eventsResult : FetchResult) (filters : Criteria) :
    Except String (List Event) :=
  match eventsResult with
  | .ok allEvents => .ok (applyFilters filters allEvents)
  | .httpError s =>
    .error ("Client-side search failed: Failed to fetch events: " ++ toString s)
  | .netError => .error "Client-side search failed: Failed to fetch"

def isErrorShown : SearchOutcome → Bool
  | .displayed _ => false
  | .errorShown _ => true

/-- `performSearch(filters)` (search.js lines 238-283): try the server search
endpoint; on any failure fall back to `performClientSideSearch`; surface the
original error only when the fallback also fails. -/
def performSearch (net : SearchNet) (filters : Criteria) : SearchOutcome :=
  match net.searchResult with
  | .ok events => .displayed events
  | r =>
    match performClientSideSearch net.eventsResult filters with
    | .ok evs => .displayed evs
    | .error _ => .errorShown (fetchErrorMessage r)

/-- C2: when the server search fails and the full-list fetch succeeds, the
flow displays exactly the three-predicate client-side filter of the full list
for the same criteria (the result `performClientSideSearch` computes), and an
error is surfaced if and only if both the server search and the fallback
fail. -/
theorem performSearch_fallback (net : SearchNet) (c : Criteria) :
    (∀ L, net.searchResult = FetchResult.ok L →
      performSearch net c = SearchOutcome.displayed L) ∧
    (fetchFails net.searchResult = true →
      ∀ L, net.eventsResult = FetchResult.ok L →
        performSearch net c = SearchOutcome.displayed (applyFilters c L) ∧
        performClientSideSearch net.eventsResult c
          = Except.ok (applyFilters c L)) ∧
    (isErrorShown (performSearch net c) = true ↔
      (fetchFails net.searchResult = true ∧
       fetchFails net.eventsResult = true)) := by
  obtain ⟨sr, er⟩ := net
  cases sr <;> cases er <;>
    simp [performSearch, performClientSideSearch, fetchFails, isErrorShown]

/-- Witness for C2 (Scenario D): the search endpoint returns HTTP 500, the
full-list fetch succeeds, and the "park" search is answered by the client-side
filter of the full list. -/
theorem performSearch_fallback_witness :
    fetchFails (FetchResult.httpError 500) = true ∧
    (SearchNet.mk (FetchResult.httpError 500)
        (FetchResult.ok [parkRunEvent, beachEvent])).eventsResult
      = FetchResult.ok [parkRunEvent, beachEvent] ∧
    performSearch
        (SearchNet.mk (FetchResult.httpError 500)
          (FetchResult.ok [parkRunEvent, beachEvent]))
        (Criteria.mk none (some "park") none)
      = SearchOutcome.displayed
          (applyFilters (Criteria.mk none (some "park") none)
            [parkRunEvent, beachEvent]) :=
  ⟨rfl, rfl,
   ((performSearch_fallback
      (SearchNet.mk (FetchResult.httpError 500)
        (FetchResult.ok [parkRunEvent, beachEvent]))
      (Criteria.mk none (some "park") none)).2.1 rfl
      [parkRunEvent, beachEvent] rfl).1⟩

/-! ## Search-state persistence (C8)

`SearchPage._saveSearchState` JSON-encodes a record of plain strings into
local storage; `JSON.parse ∘ JSON.stringify` is the identity on such a record,
so the storage slot is modelled as holding the record itself (`none` models an
empty slot). -/

structure StoredFilters where
  date : String
  location : String
  category : String
deriving DecidableEq, Repr

/-- The search-page state components that participate in persistence
(part_003 lines 45-54). -/
structure SearchPageState where
  currentFilters : StoredFilters
  searchQuery : String
  sortBy : String
  sortOrder : String
deriving DecidableEq, Repr

/-- The object written under the `search_state` key
(part_003 lines 432-441). -/
structure StoredSearchState where
  filters : StoredFilters
  searchQuery : String
  sortBy : String
  sortOrder : String
deriving DecidableEq, Repr

def saveSearchState (st : SearchPageState) : StoredSearchState :=
  { filters := st.currentFilters
    searchQuery := st.searchQuery
    sortBy := st.sortBy
    sortOrder := st.sortOrder }

/-- JS `x || d` for a string `x`: the empty string is the only falsy string. -/
def jsOrDefault (x d : String) : String :=
  if x = "" then d else x

/-- `SearchPage._restoreSearchState` (part_003 lines 446-460): an empty slot
restores nothing; otherwise each component is read back with a falsy-default
(`savedState.filters || {}` never fires for a saved record, whose `filters`
object is truthy). -/
def restoreSearchState (stored : Option StoredSearchState)
    (st : SearchPageState) : SearchPageState :=
  match stored with
  | none => st
  | some sv =>
    { st with
      currentFilters := sv.filters
      searchQuery := jsOrDefault sv.searchQuery ""
      sortBy := jsOrDefault sv.sortBy "relevance"
      sortOrder := jsOrDefault sv.sortOrder "desc" }

/-- C8: persisting the search state and restoring it yields the persisted
criteria again: filters and query are restored verbatim (an empty query's
falsy-default is the empty string itself), and the sort key and direction are
restored verbatim because every sort key and direction is a non-empty string.
-/
theorem searchState_roundtrip (st st0 : SearchPageState)
    (hKey : st.sortBy ≠ "") (hDir : st.sortOrder ≠ "") :
    restoreSearchState (some (saveSearchState st)) st0
      = { st0 with
          currentFilters := st.currentFilters
          searchQuery := st.searchQuery
          sortBy := st.sortBy
          sortOrder := st.sortOrder } := by
  simp only [restoreSearchState, saveSearchState, jsOrDefault, if_neg hKey,
    if_neg hDir]
  by_cases hq : st.searchQuery = "" <;> simp [hq]

/-- Witness for C8 at a concrete state (a "park" search sorted by date
descending, restored over a fresh default state). -/
theorem searchState_roundtrip_witness :
    ("date" : String) ≠ "" ∧ ("desc" : String) ≠ "" ∧
    restoreSearchState
        (some (saveSearchState
          (SearchPageState.mk (StoredFilters.mk "" "park" "2") "" "date" "desc")))
        (SearchPageState.mk (StoredFilters.mk "" "" "") "" "relevance" "desc")
      = SearchPageState.mk (StoredFilters.mk "" "park" "2") "" "date" "desc" :=
  ⟨by decide, by decide,
   searchState_roundtrip
     (SearchPageState.mk (StoredFilters.mk "" "park" "2") "" "date" "desc")
     (SearchPageState.mk (StoredFilters.mk "" "" "") "" "relevance" "desc")
     (by decide) (by decide)⟩

/-! ## JS value coercions used by the API client

Wire values are JSON scalars; `JPrim` models them, and `none` at an
`Option JPrim` field models an absent key.  `Option ℚ` models a JS number
with `none` for `NaN`. -/

inductive JPrim where
  | pnull
  | pbool (b : Bool)
  | pnum (q : ℚ)
  | pstr (s : String)
deriving DecidableEq, Repr

def isWsChar (c : Char) : Bool :=
  c == ' ' || c == '\t' || c == '\n' || c == '\r'

def isDigitChar (c : Char) : Bool :=
  '0' ≤ c && c ≤ '9'

def digitsToNat (cs : List Char) : ℕ :=
  cs.foldl (fun n c => 10 * n + (c.toNat - 48)) 0

def trimChars (cs : List Char) : List Char :=
  ((cs.dropWhile isWsChar).reverse.dropWhile isWsChar).reverse

/-- An unsigned JS decimal literal: `digits`, `digits.digits`, `digits.` or
`.digits`; anything else is `NaN` (`none`). -/
def parseDecimal (cs : List Char) : Option ℚ :=
  let intPart := cs.takeWhile isDigitChar
  let rest := cs.dropWhile isDigitChar
  match rest with
  | [] => if intPart = [] then none else some ((digitsToNat intPart : ℕ) : ℚ)
  | '.' :: frac =>
    if frac.all isDigitChar then
      if frac = [] then
        if intPart = [] then none else some ((digitsToNat intPart : ℕ) : ℚ)
      else
        some (((digitsToNat intPart * 10 ^ frac.length + digitsToNat frac : ℕ) : ℚ)
          / ((10 ^ frac.length : ℕ) : ℚ))
    else none
  | _ => none

/-- JS `Number(s)` on a string: trimmed-empty is 0, otherwise an optionally
signed decimal literal; a non-numeric string is `NaN`.  (The exotic numeric
string forms — hex, exponents, `Infinity` — are outside the fragment these
pages produce and are mapped to `NaN`.) -/
def jsStringToNumber (s : String) : Option ℚ :=
  match trimChars s.data with
  | [] => some 0
  | '-' :: rest => (parseDecimal rest).map (fun q => -q)
  | '+' :: rest => parseDecimal rest
  | cs => parseDecimal cs

/-! ## `fetchEventById` id validation (C5) -/

/-- The `id` argument of `fetchEventById` as it arrives from a page: a number
or a string (event.html passes the raw query-string parameter). -/
inductive JsValue where
  | num (q : ℚ)
  | str (s : String)
deriving DecidableEq, Repr

/-- JS truthiness of the argument: `0` and the empty string are falsy. -/
def jsValueFalsy : JsValue → Bool
  | .num q => q == 0
  | .str s => s == ""

/-- JS `Number(id)`; `none` models `NaN`. -/
def jsValueToNumber : JsValue → Option ℚ
  | .num q => some q
  | .str s => jsStringToNumber s

/-- The guard `!id || isNaN(Number(id))` of `CharityEventsAPI.fetchEventById`
(part_004 lines 187-189); when true the method throws
`Invalid event ID provided` before any request is made. -/
def fetchEventByIdRejects (id : JsValue) : Bool :=
  jsValueFalsy id || (jsValueToNumber id).isNone

/-- Whether `fetchEventById` reaches `_makeRequestWithRetry`, i.e. issues a
network request. -/
def fetchEventByIdRequests (id : JsValue) : Bool :=
  !(fetchEventByIdRejects id)

/-- `CharityEventsAPI.fetchEventById(id)` (part_004 lines 185-204) against a
remote whose active-event table is `db`.  The remote (`getEventById`,
eventController.js lines 74-125) answers `WHERE id = ? AND is_active = TRUE`
and raises `NotFoundError` (HTTP 404) when no row matches; the client's
`_handleError` maps a 404 to the message `Resource not found`. -/
def fetchEventById (db : List Event) (id : JsValue) : Except String Event :=
  if fetchEventByIdRejects id then
    Except.error "Invalid event ID provided"
  else
    match jsValueToNumber id with
    | none => Except.error "Invalid event ID provided"
    | some q =>
      match (db.filter (fun e => e.is_active && ((e.id : ℚ) == q))).head? with
      | some ev => Except.ok ev
      | none => Except.error "Resource not found"

/-- C5 counterexample: the id `"-5"` denotes no positive integer, yet the
validation guard passes it (`Number("-5") = -5` is neither falsy-sourced nor
`NaN`) and a network request is issued — refuting the claim that every
non-positive-integer id is rejected before any network request. -/
theorem fetchEventById_negative_id_requests :
    fetchEventByIdRequests (JsValue.str "-5") = true ∧
    jsValueToNumber (JsValue.str "-5") = some (-5) ∧
    ¬ (0 < (-5 : ℚ) ∧ (-5 : ℚ).den = 1) := by
  refine ⟨by decide, by decide, ?_⟩
  intro h
  exact absurd h.1 (by norm_num)

/-- C5 (amended): `fetchEventById` rejects — before any network request —
exactly the ids that are falsy (`0`, the empty string) or whose numeric
coercion is `NaN` (such as the string `"abc"`); and for an id denoting a
positive integer with no matching active event, it fails with the not-found
error. -/
theorem fetchEventById_validation (db : List Event) (id : JsValue) :
    (jsValueFalsy id = true ∨ jsValueToNumber id = none →
      fetchEventById db id = Except.error "Invalid event ID provided" ∧
      fetchEventByIdRequests id = false) ∧
    (∀ n : ℕ, 0 < n → jsValueToNumber id = some (n : ℚ) →
      (∀ e ∈ db, e.is_active = true → (e.id : ℚ) ≠ (n : ℚ)) →
      fetchEventById db id = Except.error "Resource not found") := by
  constructor
  · intro h
    have hrej : fetchEventByIdRejects id = true := by
      unfold fetchEventByIdRejects
      rcases h with h | h
      · simp [h]
      · simp [h]
    constructor
    · simp [fetchEventById, hrej]
    · simp [fetchEventByIdRequests, hrej]
  · intro n hn hnum hmiss
    have hfalsy : jsValueFalsy id = false := by
      cases id with
      | num q =>
        simp only [jsValueToNumber, Option.some.injEq] at hnum
        simp only [jsValueFalsy, beq_eq_false_iff_ne, ne_eq, hnum]
        intro h0
        have hn0 : n = 0 := by exact_mod_cast h0
        rw [hn0] at hn
        exact absurd hn (by decide)
      | str s =>
        simp only [jsValueFalsy, beq_eq_false_iff_ne, ne_eq]
        intro hs
        rw [hs] at hnum
        have : jsStringToNumber "" = some 0 := by decide
        simp only [jsValueToNumber, this, Option.some.injEq] at hnum
        have : (n : ℚ) = 0 := hnum.symm
        have hn0 : n = 0 := by exact_mod_cast this
        rw [hn0] at hn
        exact absurd hn (by decide)
    have hrej : fetchEventByIdRejects id = false := by
      unfold fetchEventByIdRejects
      simp [hfalsy, hnum]
    have hnohit :
        (db.filter (fun e => e.is_active && ((e.id : ℚ) == (n : ℚ)))) = [] := by
      rw [List.filter_eq_nil_iff]
      intro e he
      rw [Bool.and_eq_true, beq_iff_eq]
      intro hcon
      exact hmiss e he hcon.1 hcon.2
    simp [fetchEventById, hrej, hnum, hnohit]

/-- Witness for C5 (amended): `"abc"` coerces to `NaN` and is rejected before
any request; the positive-integer id 7 against an empty active-event table
fails with the not-found error. -/
theorem fetchEventById_validation_witness :
    jsValueToNumber (JsValue.str "abc") = none ∧
    (fetchEventById [] (JsValue.str "abc")
        = Except.error "Invalid event ID provided" ∧
     fetchEventByIdRequests (JsValue.str "abc") = false) ∧
    fetchEventById [] (JsValue.num 7) = Except.error "Resource not found" :=
  ⟨by decide,
   (fetchEventById_validation [] (JsValue.str "abc")).1 (Or.inr (by decide)),
   (fetchEventById_validation [] (JsValue.num 7)).2 7 (by decide) (by decide)
     (by simp)⟩

/-! ## Retry policy of the API client (C6)

`_makeRequest` catches every failure and rethrows `this._handleError(error)`;
`_makeRequestWithRetry` then consults `_shouldRetry` on the error it caught —
which is therefore always the transformed error, not the raw one.  The network
is an oracle giving the outcome of each attempt; the result also carries the
list of backoff delays actually slept, so "how many retries happened" is
observable. -/

structure JsError where
  name : String
  message : String
deriving DecidableEq, Repr

def jsStrIncludes (hay sub : String) : Bool :=
  jsIncludes hay.data sub.data

/-- Message of the error thrown on a non-ok response
(`HTTP error! status: ${response.status}`, part_004 line 52). -/
def statusMessage (s : ℕ) : String :=
  "HTTP error! status: " ++ toString s

inductive AttemptOutcome where
  | ok
  | netFail
  | http (status : ℕ)
deriving DecidableEq, Repr

/-- The raw error produced inside the `try` of `_makeRequest`: a rejected
`fetch` is a `TypeError`; a non-ok response throws a plain `Error` with the
status message; a success produces no error. -/
def rawError : AttemptOutcome → Option JsError
  | .ok => none
  | .netFail => some { name := "TypeError", message := "Failed to fetch" }
  | .http s => some { name := "Error", message := statusMessage s }

/-- `CharityEventsAPI._handleError` (part_004 lines 119-138): replaces the
error with a fresh `Error` carrying a user-friendly message. -/
def handleError (e : JsError) : JsError :=
  if e.name == "TypeError" then
    { name := "Error"
      message := "Network error: Please check your internet connection" }
  else if jsStrIncludes e.message "timeout" then
    { name := "Error"
      message := "Request timeout: The server is taking too long to respond" }
  else if jsStrIncludes e.message "status: 404" then
    { name := "Error", message := "Resource not found" }
  else if jsStrIncludes e.message "status: 500" then
    { name := "Error", message := "Server error: Please try again later" }
  else
    { name := "Error", message := "An unexpected error occurred" }

/-- `CharityEventsAPI._shouldRetry` (part_004 lines 97-103): network errors
(`TypeError`), timeout messages, and 5xx HTTP-error messages are classified
retryable. -/
def shouldRetry (e : JsError) : Bool :=
  e.name == "TypeError" ||
  jsStrIncludes e.message "timeout" ||
  (jsStrIncludes e.message "HTTP error" && jsStrIncludes e.message "status: 5")

/-- `CharityEventsAPI._makeRequest` (part_004 lines 38-64): success, or the
`_handleError`-transformed failure. -/
instance : DecidableEq (Except JsError Unit) := fun a b =>
  match a, b with
  | Except.ok (), Except.ok () => isTrue rfl
  | Except.error e1, Except.error e2 =>
    if h : e1 = e2 then isTrue (by rw [h])
    else isFalse (fun hc => h (Except.error.inj hc))
  | Except.ok (), Except.error _ => isFalse (fun hc => Except.noConfusion hc)
  | Except.error _, Except.ok () => isFalse (fun hc => Except.noConfusion hc)

def makeRequest (o : AttemptOutcome) : Except JsError Unit :=
  match rawError o with
  | none => Except.ok ()
  | some e => Except.error (handleError e)

def maxRetries : ℕ := 3

def retryDelay : ℕ := 1000

/-- `CharityEventsAPI._makeRequestWithRetry` (part_004 lines 73-90), with the
recursion made structural on an explicit budget: the guard
`retryCount < maxRetries` bounds the recursion depth by
`maxRetries - retryCount`, which is exactly the budget supplied below, so the
budget never runs out while the guard still holds.  The second component is
the list of backoff delays (`retryDelay * 2 ^ retryCount`) slept before each
re-issued attempt. -/
def makeRequestWithRetryGo (attempts : ℕ → AttemptOutcome)
    (retryCount fuel : ℕ) : Except JsError Unit × List ℕ :=
  match makeRequest (attempts retryCount) with
  | .ok u => (.ok u, [])
  | .error e =>
    match fuel with
    | 0 => (.error e, [])
    | fuel' + 1 =>
      if shouldRetry e && decide (retryCount < maxRetries) then
        let p := makeRequestWithRetryGo attempts (retryCount + 1) fuel'
        (p.1, retryDelay * 2 ^ retryCount :: p.2)
      else (.error e, [])

def makeRequestWithRetry (attempts : ℕ → AttemptOutcome)
    (retryCount : ℕ) : Except JsError Unit × List ℕ :=
  makeRequestWithRetryGo attempts retryCount (maxRetries - retryCount)

/-- C6 (code bug): a request that fails with HTTP 500 on every attempt, and
one that fails at the network level on every attempt, are both raised after a
single attempt with an empty delay list — no retry, no backoff — because
`_shouldRetry` receives the `_handleError`-transformed error, whose name is
`Error` and whose message matches none of the retry patterns, even though the
raw errors (last two conjuncts vs. their transforms) are exactly the ones
`_shouldRetry` classifies as retryable. -/
theorem makeRequestWithRetry_never_retries :
    makeRequestWithRetry (fun _ => AttemptOutcome.http 500) 0
      = (Except.error
          { name := "Error"
            message := "Server error: Please try again later" }, []) ∧
    makeRequestWithRetry (fun _ => AttemptOutcome.netFail) 0
      = (Except.error
          { name := "Error"
            message := "Network error: Please check your internet connection" },
         []) ∧
    shouldRetry { name := "Error", message := statusMessage 500 } = true ∧
    shouldRetry { name := "TypeError", message := "Failed to fetch" } = true ∧
    shouldRetry (handleError { name := "Error", message := statusMessage 500 })
      = false ∧
    shouldRetry (handleError { name := "TypeError", message := "Failed to fetch" })
      = false := by
  decide

/-! ## Wire-record validation (C7)

`_validateEventsData` maps `_validateEventData` over the received array and
drops the `null` results.  A wire record is a JSON object whose fields are
scalars (`JPrim`); an absent key is `none`.  `new Date(x)` is abstracted to
the raw wire value it was built from, and the JS decimal rendering of
`String(x)` on a number is abstracted to the Lean rendering (no theorem below
depends on it). -/

structure WireEvent where
  id : Option JPrim
  name : Option JPrim
  short_description : Option JPrim
  full_description : Option JPrim
  date_time : Option JPrim
  location : Option JPrim
  address : Option JPrim
  category_id : Option JPrim
  category_name : Option JPrim
  ticket_price : Option JPrim
  ticket_type : Option JPrim
  goal_amount : Option JPrim
  current_amount : Option JPrim
  is_active : Option JPrim
  max_attendees : Option JPrim
  created_at : Option JPrim
  updated_at : Option JPrim
deriving DecidableEq, Repr

/-- JS truthiness of an object field (`event[field]`): an absent key
(`undefined`), `null`, `0`, the empty string and `false` are falsy. -/
def jsTruthy : Option JPrim → Bool
  | none => false
  | some .pnull => false
  | some (.pbool b) => b
  | some (.pnum q) => !(q == 0)
  | some (.pstr s) => !(s == "")

def jsPrimToNumber : JPrim → Option ℚ
  | .pnull => some 0
  | .pbool b => some (if b then 1 else 0)
  | .pnum q => some q
  | .pstr s => jsStringToNumber s

def jsPrimToString : JPrim → String
  | .pnull => "null"
  | .pbool b => if b then "true" else "false"
  | .pnum q => toString q
  | .pstr s => s

/-- JS `Number(x)` on a field value; `Number(undefined)` is `NaN`. -/
def jsFieldToNumber : Option JPrim → Option ℚ
  | none => none
  | some p => jsPrimToNumber p

/-- JS `Number(x || 0)`: a falsy field defaults to 0 before coercion. -/
def numOrZero (v : Option JPrim) : Option ℚ :=
  if jsTruthy v then jsFieldToNumber v else some 0

/-- JS `String(x || d)`. -/
def strOrDefault (v : Option JPrim) (d : String) : String :=
  if jsTruthy v then jsPrimToString (v.getD JPrim.pnull) else d

/-- The cleaned record `_validateEventData` returns (part_004 lines 286-304).
`Option ℚ` fields model JS numbers that may be `NaN`. -/
structure VEvent where
  id : Option ℚ
  name : String
  short_description : String
  full_description : String
  date_time : JPrim
  location : String
  address : String
  category_id : Option ℚ
  category_name : String
  ticket_price : Option ℚ
  ticket_type : String
  goal_amount : Option ℚ
  current_amount : Option ℚ
  is_active : Bool
  max_attendees : Option (Option ℚ)
  created_at : Option JPrim
  updated_at : Option JPrim
deriving DecidableEq, Repr

/-- `CharityEventsAPI._validateEventData` (part_004 lines 269-305): drop the
record (return `null`) when any of the four required fields is falsy,
otherwise clean and coerce every field. -/
def validateEventData (w : WireEvent) : Option VEvent :=
  if !(jsTruthy w.id) || !(jsTruthy w.name) ||
     !(jsTruthy w.date_time) || !(jsTruthy w.location) then
    none
  else
    some
      { id := jsFieldToNumber w.id
        name := strOrDefault w.name "Unnamed Event"
        short_description := strOrDefault w.short_description ""
        full_description := strOrDefault w.full_description ""
        date_time := w.date_time.getD JPrim.pnull
        location := jsPrimToString (w.location.getD JPrim.pnull)
        address := strOrDefault w.address ""
        category_id := numOrZero w.category_id
        category_name := strOrDefault w.category_name "Uncategorized"
        ticket_price := numOrZero w.ticket_price
        ticket_type :=
          if w.ticket_type = some (JPrim.pstr "paid") then "paid" else "free"
        goal_amount := numOrZero w.goal_amount
        current_amount := numOrZero w.current_amount
        is_active := jsTruthy w.is_active
        max_attendees :=
          if jsTruthy w.max_attendees then some (jsFieldToNumber w.max_attendees)
          else none
        created_at := if jsTruthy w.created_at then w.created_at else none
        updated_at := if jsTruthy w.updated_at then w.updated_at else none }

/-- `CharityEventsAPI._validateEventsData` (part_004 lines 255-262):
`events.map(validate).filter(Boolean)`; a non-array payload yields `[]`
(captured by the input type). -/
def validateEventsData (ws : List WireEvent) : List VEvent :=
  ws.filterMap validateEventData

/-- A wire record with every required key present — but `name` is the empty
string, which is falsy. -/
def emptyNameWire : WireEvent :=
  { id := some (JPrim.pnum 1)
    name := some (JPrim.pstr "")
    short_description := none
    full_description := none
    date_time := some (JPrim.pstr "2025-10-18T09:00:00")
    location := some (JPrim.pstr "City Park")
    address := none
    category_id := none
    category_name := none
    ticket_price := none
    ticket_type := none
    goal_amount := none
    current_amount := none
    is_active := some (JPrim.pbool true)
    max_attendees := none
    created_at := none
    updated_at := none }

/-- C7 counterexample: a record with all four required fields present is
nevertheless dropped, because the required-field check `!event[field]` is a
falsiness test and `name` is the (present) empty string — refuting "drops
exactly the records missing a required field and keeps the rest". -/
theorem validateEventsData_drops_present_field :
    validateEventsData [emptyNameWire] = [] ∧
    emptyNameWire.id.isSome = true ∧
    emptyNameWire.name.isSome = true ∧
    emptyNameWire.date_time.isSome = true ∧
    emptyNameWire.location.isSome = true := by
  decide

/-- C7 (amended): validation never aborts the whole fetch (each record is
validated independently and only bad ones are dropped); a record is dropped
exactly when one of the required fields id, name, date-time, location is
absent or falsy; and on every kept record the ticket price defaults to 0 when
the field is absent or falsy, and the category name defaults to
`Uncategorized` when the field is absent or falsy. -/
theorem validateEventsData_spec (ws : List WireEvent) (w : WireEvent) :
    validateEventsData ws = ws.filterMap validateEventData ∧
    (validateEventData w = none ↔
      (jsTruthy w.id = false ∨ jsTruthy w.name = false ∨
       jsTruthy w.date_time = false ∨ jsTruthy w.location = false)) ∧
    (∀ v, validateEventData w = some v →
      (jsTruthy w.ticket_price = false → v.ticket_price = some 0) ∧
      (jsTruthy w.category_name = false → v.category_name = "Uncategorized")) := by
  refine ⟨rfl, ?_, ?_⟩
  · cases hid : jsTruthy w.id <;> cases hname : jsTruthy w.name <;>
      cases hdt : jsTruthy w.date_time <;> cases hloc : jsTruthy w.location <;>
      simp [validateEventData, hid, hname, hdt, hloc]
  · intro v hv
    unfold validateEventData at hv
    by_cases hg : (!(jsTruthy w.id) || !(jsTruthy w.name) ||
        !(jsTruthy w.date_time) || !(jsTruthy w.location)) = true
    · simp [hg] at hv
    · rw [if_neg hg] at hv
      obtain rfl := Option.some_inj.mp hv
      constructor
      · intro htp
        simp [numOrZero, htp]
      · intro hcn
        simp [strOrDefault, hcn]

/-- A kept wire record whose price and category-name keys are absent. -/
def minimalWire : WireEvent :=
  { id := some (JPrim.pnum 3)
    name := some (JPrim.pstr "Gala Dinner")
    short_description := none
    full_description := none
    date_time := some (JPrim.pstr "2025-12-01T18:00:00")
    location := some (JPrim.pstr "Town Hall")
    address := none
    category_id := none
    category_name := none
    ticket_price := none
    ticket_type := none
    goal_amount := none
    current_amount := none
    is_active := none
    max_attendees := none
    created_at := none
    updated_at := none }

/-- The cleaned record `minimalWire` validates to. -/
def minimalValidated : VEvent :=
  { id := some 3
    name := "Gala Dinner"
    short_description := ""
    full_description := ""
    date_time := JPrim.pstr "2025-12-01T18:00:00"
    location := "Town Hall"
    address := ""
    category_id := some 0
    category_name := "Uncategorized"
    ticket_price := some 0
    ticket_type := "free"
    goal_amount := some 0
    current_amount := some 0
    is_active := false
    max_attendees := none
    created_at := none
    updated_at := none }

/-- Witness for C7 (amended): a record with absent price and category-name
keys is kept, with ticket price 0 and category name `Uncategorized`. -/
theorem validateEventsData_spec_witness :
    jsTruthy minimalWire.ticket_price = false ∧
    jsTruthy minimalWire.category_name = false ∧
    validateEventData minimalWire = some minimalValidated ∧
    minimalValidated.ticket_price = some 0 ∧
    minimalValidated.category_name = "Uncategorized" :=
  have hv : validateEventData minimalWire = some minimalValidated := by decide
  ⟨by decide, by decide, hv,
   ((validateEventsData_spec [minimalWire] minimalWire).2.2
      minimalValidated hv).1 (by decide),
   ((validateEventsData_spec [minimalWire] minimalWire).2.2
      minimalValidated hv).2 (by decide)⟩
